import Mathlib

/-
  Verification development for the PayPal proxy Flask app (src/app.py).

  The embedding is shallow: the three components of the pipeline
  (parameter normalizer `parse_cc_parameter`, upstream dispatcher
  `make_request_with_fallback`, response sanitizer `sanitize_response`
  and the endpoint handler `process_credit_card`) are translated to
  total Lean functions.  Outbound HTTP is modelled by an oracle
  `Oracle : HttpRequest → FetchResult` supplied as a parameter; the
  handler additionally returns the list of outbound requests it issued
  (ghost instrumentation; the first components match the source).

  Modelling conventions:
  * Python `re` word characters (`\w`) are modelled as ASCII
    alphanumerics plus underscore (the app only ever meets ASCII data).
  * `response.json()` succeeding with a JSON object is modelled by
    `Body.json : Option JsonObj`, a record of the three optional string
    fields the handler reads; a body that is not a JSON object has
    `json = none` (the `except ValueError` branch).
  * `random.choice(PROXY_CONFIGS)` is modelled by an explicit `chosen`
    argument; `random.choice` on an empty list raises, which the
    handler's `except Exception` turns into NETWORK_BLOCKED — that path
    is embedded explicitly.
  * Python `str.strip()` is `pyStrip` (ASCII whitespace).
  * `requests.Response.__bool__` is `status_code < 400` (`Response.ok`),
    which matters in the API_BLOCKED message interpolation.
-/

namespace PaypalProxy

/-! ### Sanitizer (src/app.py lines 17-33) -/

/-- Python regex `\w` (ASCII fragment): letters, digits, underscore. -/
def isWordChar (c : Char) : Bool :=
  c.isAlpha || c.isDigit || c == '_'

/-- Characters admitted by the URL regex body
`(?:[a-zA-Z]|[0-9]|[$-_@.&+]|[!*\\(\\),]|(?:%[0-9a-fA-F][0-9a-fA-F]))+`:
`[$-_@.&+]` is the code-point range 0x24-0x5F (which already contains
`@ . & + * ( ) , \ %` and the digits), `[!*\\(\\),]` adds `!` and
repeats members of the range, and the `%XX` alternative is subsumed by
`%` lying in the range. -/
def isUrlChar (c : Char) : Bool :=
  c.isAlpha || c.isDigit || ('$' ≤ c && c ≤ '_') ||
    c == '!' || c == '*' || c == '\\' || c == '(' || c == ')' || c == ','

/-- Is the first character a word character? -/
def headIsWordChar : List Char → Bool
  | [] => false
  | c :: _ => isWordChar c

/-- One left-to-right pass of `re.sub(r'@\w+', '', text)`: at each
position, an `@` followed by at least one word character deletes the
`@` and the maximal word-character run; scanning resumes after the
match.  Fuel is the length of the initial list, which every call
maintains above the length of the remaining list. -/
def rmMentionsAux : Nat → List Char → List Char
  | 0, l => l
  | _ + 1, [] => []
  | fuel + 1, c :: rest =>
    if c == '@' && headIsWordChar rest then
      rmMentionsAux fuel (rest.dropWhile isWordChar)
    else
      c :: rmMentionsAux fuel rest

def removeMentions (l : List Char) : List Char :=
  rmMentionsAux l.length l

/-- Match `p` at least once, greedily: consume the maximal nonempty
run of characters satisfying `p`, returning the remainder; `none` if
the first character does not satisfy `p`. -/
def consumeRun (p : Char → Bool) : List Char → Option (List Char)
  | [] => none
  | c :: rest => if p c then some (rest.dropWhile p) else none

/-- Does the URL regex `http[s]?://<run>` match at the head of `l`?
Returns the remainder after the (greedy) match. -/
def urlMatchAt (l : List Char) : Option (List Char) :=
  if l.take 8 = "https://".data then consumeRun isUrlChar (l.drop 8)
  else if l.take 7 = "http://".data then consumeRun isUrlChar (l.drop 7)
  else none

/-- One pass of `re.sub` for the URL regex. -/
def rmUrlsAux : Nat → List Char → List Char
  | 0, l => l
  | _ + 1, [] => []
  | fuel + 1, c :: rest =>
    match urlMatchAt (c :: rest) with
    | some rem => rmUrlsAux fuel rem
    | none => c :: rmUrlsAux fuel rest

def removeUrls (l : List Char) : List Char :=
  rmUrlsAux l.length l

/-- Does `www\.\w+\.\w+` match at the head of `l`?  Greedy `\w+` runs
need no backtracking: a shorter run would leave a word character where
the literal `.` is required. -/
def wwwMatchAt (l : List Char) : Option (List Char) :=
  if l.take 4 = "www.".data then
    match consumeRun isWordChar (l.drop 4) with
    | some ('.' :: r2) => consumeRun isWordChar r2
    | _ => none
  else none

/-- One pass of `re.sub` for the bare-domain regex. -/
def rmWwwAux : Nat → List Char → List Char
  | 0, l => l
  | _ + 1, [] => []
  | fuel + 1, c :: rest =>
    match wwwMatchAt (c :: rest) with
    | some rem => rmWwwAux fuel rem
    | none => c :: rmWwwAux fuel rest

def removeWww (l : List Char) : List Char :=
  rmWwwAux l.length l

/-- ASCII fragment of Python `str.strip()` whitespace. -/
def isPyWhitespace (c : Char) : Bool :=
  c == ' ' || c == '\t' || c == '\n' || c == '\r' || c == '\x0b' || c == '\x0c'

/-- Python `str.strip()`: drop leading and trailing whitespace. -/
def pyStrip (l : List Char) : List Char :=
  ((l.dropWhile isPyWhitespace).reverse.dropWhile isPyWhitespace).reverse

/-- Function `sanitize_response` (src/app.py lines 17-33): the `if not text`
guard, then the three `re.sub` passes in source order (mentions, URLs,
bare domains), then `.strip()`. -/
def sanitize_response (text : String) : String :=
  if text = "" then ""
  else String.mk (pyStrip (removeWww (removeUrls (removeMentions text.data))))

/-! ### Parameter normalizer (src/app.py lines 35-53) -/

/-- Python `str.split('|')` on character lists: fields between the
separators, with empty fields preserved (`"".split('|') == ['']`,
`"a|".split('|') == ['a', '']`). -/
def splitPipe : List Char → List (List Char)
  | [] => [[]]
  | c :: rest =>
    if c = '|' then [] :: splitPipe rest
    else
      match splitPipe rest with
      | [] => [[c]]
      | f :: fs => (c :: f) :: fs

/-- Python `cc_param.split('|')` as a list of strings. -/
def pySplitPipe (s : String) : List String :=
  (splitPipe s.data).map String.mk

/-- The year branch of `parse_cc_parameter`: a 2-character year gets
`"20"` prefixed, anything else passes through verbatim. -/
def normalizeYear (yyyy_or_yy : String) : String :=
  if yyyy_or_yy.length = 2 then "20" ++ yyyy_or_yy else yyyy_or_yy

/-- Function `parse_cc_parameter` (src/app.py lines 35-53): split on `|`;
exactly four parts yield the four fields with the year normalized,
anything else yields the invalid sentinel (`None, None, None, None`,
modelled as `none`). -/
def parse_cc_parameter (cc_param : String) : Option (String × String × String × String) :=
  match pySplitPipe cc_param with
  | [cc, mm, yyyy_or_yy, cvv] => some (cc, mm, normalizeYear yyyy_or_yy, cvv)
  | _ => none

/-! ### HTTP model -/

/-- An outbound GET request: URL, optional User-Agent header, timeout
in seconds.  These are the only request ingredients the source varies. -/
structure HttpRequest where
  url : String
  userAgent : Option String
  timeout : Nat
deriving DecidableEq

/-- The JSON-object view of an upstream body: the three optional
fields the handler reads via `api_data.get`. -/
structure JsonObj where
  code : Option String
  status : Option String
  message : Option String
deriving DecidableEq

/-- An upstream body: its raw text (`response.text`) and, when
`response.json()` succeeds with an object, its JSON view
(`json = none` models the `ValueError` branch). -/
structure Body where
  text : String
  json : Option JsonObj
deriving DecidableEq

structure HttpResponse where
  statusCode : Nat
  body : Body
deriving DecidableEq

/-- What `requests.get` does for one request: return a response, or
raise (timeout, connection error, ...). -/
inductive FetchResult where
  | success (r : HttpResponse)
  | exn
deriving DecidableEq

/-- The network, as an oracle from requests to outcomes. -/
def Oracle : Type := HttpRequest → FetchResult

/-! ### Configuration (src/app.py lines 8-15, 59-61) -/

def TARGET_API_BASE : String := "https://paypal.cxchk.site/gate=pp1"

def PROXY_CONFIGS : List String := ["TITS.OOPS.WTF:6969:asyncio:requests"]

def browserUserAgent : String :=
  "Mozilla/5.0 (Windows NT 10.0; Win64; x64) AppleWebKit/537.36 (KHTML, like Gecko) Chrome/91.0.4472.124 Safari/537.36"

/-! ### Upstream dispatcher (src/app.py lines 55-81) -/

/-- The direct attempt's request: browser User-Agent, 30 s timeout. -/
def mkDirectRequest (target_url : String) : HttpRequest :=
  ⟨target_url, some browserUserAgent, 30⟩

/-- A listed-proxy attempt's request: `?proxy=<entry>` appended, same
headers and timeout. -/
def mkProxyRequest (target_url proxy_config : String) : HttpRequest :=
  ⟨target_url ++ "?proxy=" ++ proxy_config, some browserUserAgent, 30⟩

/-- The outcome of one attempt inside `make_request_with_fallback`:
`some r` iff `requests.get` returned and `response.status_code == 200`
(the only case in which the source returns from the attempt); a non-200
response or a raised exception both fall through to the next strategy. -/
def ok200 (fetch : Oracle) (req : HttpRequest) : Option HttpResponse :=
  match fetch req with
  | .success r => if r.statusCode = 200 then some r else none
  | .exn => none

/-- The `for proxy_config in PROXY_CONFIGS` loop: try each proxy in
list order, returning the first 200 response.  The second component is
the list of requests issued (ghost instrumentation). -/
def tryProxies (fetch : Oracle) (target_url : String) :
    List String → Option HttpResponse × List HttpRequest
  | [] => (none, [])
  | p :: ps =>
    match ok200 fetch (mkProxyRequest target_url p) with
    | some r => (some r, [mkProxyRequest target_url p])
    | none =>
      ((tryProxies fetch target_url ps).1,
        mkProxyRequest target_url p :: (tryProxies fetch target_url ps).2)

/-- Function `make_request_with_fallback` (src/app.py lines 55-81): direct
attempt first, then the configured proxies in order; `none` when every
strategy failed.  The second component is the list of requests issued
(ghost instrumentation; the first component matches the source). -/
def make_request_with_fallback (fetch : Oracle) (proxy_configs : List String)
    (target_url : String) : Option HttpResponse × List HttpRequest :=
  match ok200 fetch (mkDirectRequest target_url) with
  | some r => (some r, [mkDirectRequest target_url])
  | none =>
    ((tryProxies fetch target_url proxy_configs).1,
      mkDirectRequest target_url :: (tryProxies fetch target_url proxy_configs).2)

/-! ### Endpoint handler (src/app.py lines 83-170) -/

/-- The `cc|mm|yyyy|cvv` join used both for the upstream URL (line 100)
and the echoed `cc` field (lines 130, 146). -/
def ccJoin (cc mm yyyy cvv : String) : String :=
  cc ++ "|" ++ mm ++ "|" ++ yyyy ++ "|" ++ cvv

/-- Variable `base_target_url` (src/app.py line 100). -/
def mkTargetUrl (cc mm yyyy cvv : String) : String :=
  TARGET_API_BASE ++ "/cc=" ++ ccJoin cc mm yyyy cvv

/-- The last-resort request (src/app.py lines 139-140): note the
absence of the `headers` argument. -/
def mkFinalRequest (cc mm yyyy cvv chosen : String) : HttpRequest :=
  ⟨mkTargetUrl cc mm yyyy cvv ++ "?proxy=" ++ chosen, none, 30⟩

/-- The envelope serialized by `jsonify`: `status` and `code` appear in
every branch; `cc`/`response`/`message` only in some, modelled as
options (`none` = key absent). -/
structure Envelope where
  cc : Option String
  response : Option String
  message : Option String
  status : String
  code : String
deriving DecidableEq

def INVALID_MSG : String :=
  "Invalid credit card parameter format. Use: cc|mm|yyyy|cvv or cc|mm|yy|cvv"

def NETWORK_BLOCKED_MSG : String :=
  "All connection attempts were blocked. The target API may have strict security measures."

/-- The 400 envelope of src/app.py lines 93-97. -/
def invalidEnvelope : Envelope :=
  ⟨none, none, some INVALID_MSG, "declined", "INVALID_PARAMETERS"⟩

/-- The f-string of src/app.py line 154.  `final_response` is truthy
iff `Response.ok`, i.e. `status_code < 400`, so a 4xx/5xx final
response prints `No response`. -/
def apiBlockedMessage (fr : HttpResponse) : String :=
  "Target API blocked all requests. Status: " ++
    (if fr.statusCode < 400 then toString fr.statusCode else "No response")

/-- The 200-response block of src/app.py lines 105-134: sanitize the
raw text, try the JSON view (defaults `UNKNOWN_ERROR` / `declined` /
empty message, sanitizing a non-empty message), fall back to the
sanitized text with `TEXT_RESPONSE` / `processed`. -/
def successEnvelope (cc mm yyyy cvv : String) (r : HttpResponse) : Envelope :=
  let sanitized_content := sanitize_response r.body.text
  match r.body.json with
  | some api =>
    let code := api.code.getD "UNKNOWN_ERROR"
    let status := api.status.getD "declined"
    let message0 := api.message.getD ""
    let message := if message0 ≠ "" then sanitize_response message0 else message0
    ⟨some (ccJoin cc mm yyyy cvv), some message, none, status, code⟩
  | none =>
    ⟨some (ccJoin cc mm yyyy cvv), some sanitized_content, none, "processed", "TEXT_RESPONSE"⟩

/-- The last-resort block of src/app.py lines 136-163, given the
proxy `random.choice` picked: a 200 reply is the distinguished
`PROXY_SUCCESS`/`approved` outcome, a non-200 reply is `API_BLOCKED`,
a raised exception is `NETWORK_BLOCKED`; all three return HTTP 200.
The third component is the request issued. -/
def finalFallback (fetch : Oracle) (chosen cc mm yyyy cvv : String) :
    Envelope × Nat × HttpRequest :=
  match fetch (mkFinalRequest cc mm yyyy cvv chosen) with
  | .success fr =>
    if fr.statusCode = 200 then
      (⟨some (ccJoin cc mm yyyy cvv), some (sanitize_response fr.body.text),
          none, "approved", "PROXY_SUCCESS"⟩,
        200, mkFinalRequest cc mm yyyy cvv chosen)
    else
      (⟨none, none, some (apiBlockedMessage fr), "declined", "API_BLOCKED"⟩,
        200, mkFinalRequest cc mm yyyy cvv chosen)
  | .exn =>
    (⟨none, none, some NETWORK_BLOCKED_MSG, "declined", "NETWORK_BLOCKED"⟩,
      200, mkFinalRequest cc mm yyyy cvv chosen)

/-- Function `process_credit_card` (src/app.py lines 83-170): parse, reject with
400 unless all four (normalized) fields are non-empty (`not all([...])`
in Python: the empty string is falsy), dispatch with fallback, then
format.  When the dispatcher fails, `random.choice` on an empty proxy
list raises, which the surrounding `except Exception` classifies as
NETWORK_BLOCKED without issuing the last-resort request; otherwise the
proxy it picked is the `chosen` argument.  Result: envelope, HTTP
status code, and the list of outbound requests issued (ghost). -/
def process_credit_card (fetch : Oracle) (proxy_configs : List String)
    (chosen cc_param : String) : Envelope × Nat × List HttpRequest :=
  match parse_cc_parameter cc_param with
  | none => (invalidEnvelope, 400, [])
  | some (cc, mm, yyyy, cvv) =>
    if cc = "" ∨ mm = "" ∨ yyyy = "" ∨ cvv = "" then
      (invalidEnvelope, 400, [])
    else
      match (make_request_with_fallback fetch proxy_configs (mkTargetUrl cc mm yyyy cvv)).1 with
      | some r =>
        if r.statusCode = 200 then
          (successEnvelope cc mm yyyy cvv r, 200,
            (make_request_with_fallback fetch proxy_configs (mkTargetUrl cc mm yyyy cvv)).2)
        else
          if proxy_configs = [] then
            (⟨none, none, some NETWORK_BLOCKED_MSG, "declined", "NETWORK_BLOCKED"⟩, 200,
              (make_request_with_fallback fetch proxy_configs (mkTargetUrl cc mm yyyy cvv)).2)
          else
            ((finalFallback fetch chosen cc mm yyyy cvv).1,
              (finalFallback fetch chosen cc mm yyyy cvv).2.1,
              (make_request_with_fallback fetch proxy_configs (mkTargetUrl cc mm yyyy cvv)).2 ++
                [(finalFallback fetch chosen cc mm yyyy cvv).2.2])
      | none =>
        if proxy_configs = [] then
          (⟨none, none, some NETWORK_BLOCKED_MSG, "declined", "NETWORK_BLOCKED"⟩, 200,
            (make_request_with_fallback fetch proxy_configs (mkTargetUrl cc mm yyyy cvv)).2)
        else
          ((finalFallback fetch chosen cc mm yyyy cvv).1,
            (finalFallback fetch chosen cc mm yyyy cvv).2.1,
            (make_request_with_fallback fetch proxy_configs (mkTargetUrl cc mm yyyy cvv)).2 ++
              [(finalFallback fetch chosen cc mm yyyy cvv).2.2])

/-! ### Concrete oracles used as witnesses -/

/-- An oracle on which every request raises. -/
def noFetch : Oracle := fun _ => FetchResult.exn

/-- The upstream JSON body of the spec's end-to-end scenario. -/
def okJson : JsonObj :=
  ⟨some "APPROVED", some "live", some "ok @user http://x.com"⟩

def okBody : Body := ⟨"ok @user http://x.com", some okJson⟩

def okResp : HttpResponse := ⟨200, okBody⟩

/-- An oracle on which every request succeeds with `okResp`. -/
def okFetch : Oracle := fun _ => FetchResult.success okResp

/-- An oracle that rejects every request carrying a User-Agent header
and answers the header-less last-resort request with a 403. -/
def blockFetch : Oracle := fun req =>
  if req.userAgent = none then FetchResult.success ⟨403, ⟨"blocked", none⟩⟩
  else FetchResult.exn

/-- The single configured proxy entry, used to instantiate witnesses. -/
def theProxy : String := "TITS.OOPS.WTF:6969:asyncio:requests"

/-! ### Helper lemmas -/

theorem ok200_statusCode {fetch : Oracle} {req : HttpRequest} {r : HttpResponse}
    (h : ok200 fetch req = some r) : r.statusCode = 200 := by
  unfold ok200 at h
  cases hf : fetch req with
  | success s =>
    rw [hf] at h
    by_cases hs : s.statusCode = 200
    · simp only [if_pos hs, Option.some.injEq] at h
      rw [← h]
      exact hs
    · simp [hs] at h
  | exn =>
    rw [hf] at h
    cases h

theorem tryProxies_shape (fetch : Oracle) (url : String) (ps : List String) :
    ∃ k, k ≤ ps.length ∧
      (tryProxies fetch url ps).2 = (ps.map (mkProxyRequest url)).take k := by
  induction ps with
  | nil => exact ⟨0, Nat.le_refl 0, by simp [tryProxies]⟩
  | cons p ps ih =>
    cases hok : ok200 fetch (mkProxyRequest url p) with
    | some r =>
      refine ⟨1, by simp, ?_⟩
      simp [tryProxies, hok]
    | none =>
      obtain ⟨k, hk, htr⟩ := ih
      refine ⟨k + 1, by simpa using hk, ?_⟩
      simp [tryProxies, hok, htr]

theorem tryProxies_eq_none (fetch : Oracle) (url : String) (ps : List String)
    (h : (tryProxies fetch url ps).1 = none) :
    (tryProxies fetch url ps).2 = ps.map (mkProxyRequest url) ∧
      ∀ req ∈ (tryProxies fetch url ps).2, ok200 fetch req = none := by
  induction ps with
  | nil => simp [tryProxies]
  | cons p ps ih =>
    cases hok : ok200 fetch (mkProxyRequest url p) with
    | some r => simp [tryProxies, hok] at h
    | none =>
      have h2 : (tryProxies fetch url ps).1 = none := by
        simpa [tryProxies, hok] using h
      obtain ⟨htr, hall⟩ := ih h2
      constructor
      · simp [tryProxies, hok, htr]
      · intro req hreq
        simp only [tryProxies, hok] at hreq
        rcases List.mem_cons.mp hreq with h3 | h3
        · rw [h3]
          exact hok
        · exact hall req h3

theorem tryProxies_eq_some (fetch : Oracle) (url : String) (ps : List String)
    (r : HttpResponse) (h : (tryProxies fetch url ps).1 = some r) :
    ∃ pre lastReq, (tryProxies fetch url ps).2 = pre ++ [lastReq] ∧
      ok200 fetch lastReq = some r ∧ ∀ req ∈ pre, ok200 fetch req = none := by
  induction ps with
  | nil => simp [tryProxies] at h
  | cons p ps ih =>
    cases hok : ok200 fetch (mkProxyRequest url p) with
    | some s =>
      have hs : s = r := by simpa [tryProxies, hok] using h
      refine ⟨[], mkProxyRequest url p, by simp [tryProxies, hok], ?_, by simp⟩
      rw [hok, hs]
    | none =>
      have h2 : (tryProxies fetch url ps).1 = some r := by
        simpa [tryProxies, hok] using h
      obtain ⟨pre, lastReq, htr, hlast, hpre⟩ := ih h2
      refine ⟨mkProxyRequest url p :: pre, lastReq, by simp [tryProxies, hok, htr], hlast, ?_⟩
      intro req hreq
      rcases List.mem_cons.mp hreq with h3 | h3
      · rw [h3]
        exact hok
      · exact hpre req h3

theorem mrwf_shape (fetch : Oracle) (proxies : List String) (url : String) :
    ∃ k, k ≤ proxies.length ∧
      (make_request_with_fallback fetch proxies url).2 =
        mkDirectRequest url :: (proxies.map (mkProxyRequest url)).take k := by
  unfold make_request_with_fallback
  cases hok : ok200 fetch (mkDirectRequest url) with
  | some r => exact ⟨0, Nat.zero_le _, by simp⟩
  | none =>
    obtain ⟨k, hk, htr⟩ := tryProxies_shape fetch url proxies
    exact ⟨k, hk, by simp [htr]⟩

theorem mrwf_eq_some (fetch : Oracle) (proxies : List String) (url : String)
    (r : HttpResponse)
    (h : (make_request_with_fallback fetch proxies url).1 = some r) :
    ∃ pre lastReq, (make_request_with_fallback fetch proxies url).2 = pre ++ [lastReq] ∧
      ok200 fetch lastReq = some r ∧ ∀ req ∈ pre, ok200 fetch req = none := by
  unfold make_request_with_fallback at h ⊢
  cases hok : ok200 fetch (mkDirectRequest url) with
  | some s =>
    rw [hok] at h
    simp only [Option.some.injEq] at h
    refine ⟨[], mkDirectRequest url, by simp, ?_, by simp⟩
    rw [hok, h]
  | none =>
    rw [hok] at h
    simp only at h
    obtain ⟨pre, lastReq, htr, hlast, hpre⟩ := tryProxies_eq_some fetch url proxies r h
    refine ⟨mkDirectRequest url :: pre, lastReq, by simp [htr], hlast, ?_⟩
    intro req hreq
    rcases List.mem_cons.mp hreq with h3 | h3
    · rw [h3]
      exact hok
    · exact hpre req h3

theorem mrwf_statusCode {fetch : Oracle} {proxies : List String} {url : String}
    {r : HttpResponse}
    (h : (make_request_with_fallback fetch proxies url).1 = some r) :
    r.statusCode = 200 := by
  obtain ⟨pre, lastReq, -, hlast, -⟩ := mrwf_eq_some fetch proxies url r h
  exact ok200_statusCode hlast

theorem mrwf_eq_none (fetch : Oracle) (proxies : List String) (url : String)
    (h : (make_request_with_fallback fetch proxies url).1 = none) :
    (make_request_with_fallback fetch proxies url).2 =
      mkDirectRequest url :: proxies.map (mkProxyRequest url) ∧
      ∀ req ∈ (make_request_with_fallback fetch proxies url).2, ok200 fetch req = none := by
  unfold make_request_with_fallback at h ⊢
  cases hok : ok200 fetch (mkDirectRequest url) with
  | some s => rw [hok] at h; cases h
  | none =>
    rw [hok] at h
    simp only at h
    obtain ⟨htr, hall⟩ := tryProxies_eq_none fetch url proxies h
    refine ⟨by simp [htr], ?_⟩
    intro req hreq
    simp only [List.mem_cons] at hreq
    rcases hreq with h3 | h3
    · rw [h3]
      exact hok
    · exact hall req h3

theorem mrwf_userAgent (fetch : Oracle) (proxies : List String) (url : String) :
    ∀ req ∈ (make_request_with_fallback fetch proxies url).2,
      req.userAgent = some browserUserAgent := by
  obtain ⟨k, _, htr⟩ := mrwf_shape fetch proxies url
  intro req hreq
  rw [htr] at hreq
  rcases List.mem_cons.mp hreq with h3 | h3
  · rw [h3]
    rfl
  · have h4 : req ∈ proxies.map (mkProxyRequest url) := List.mem_of_mem_take h3
    obtain ⟨p, _, hp⟩ := List.mem_map.mp h4
    rw [← hp]
    rfl

theorem mrwf_length (fetch : Oracle) (proxies : List String) (url : String) :
    (make_request_with_fallback fetch proxies url).2.length ≤ 1 + proxies.length := by
  obtain ⟨k, hk, htr⟩ := mrwf_shape fetch proxies url
  rw [htr]
  simp only [List.length_cons]
  have := List.length_take_le k (proxies.map (mkProxyRequest url))
  simp only [List.length_map] at this
  omega

theorem finalFallback_status (fetch : Oracle) (chosen cc mm yyyy cvv : String) :
    (finalFallback fetch chosen cc mm yyyy cvv).2.1 = 200 := by
  unfold finalFallback
  cases fetch (mkFinalRequest cc mm yyyy cvv chosen) with
  | success fr =>
    by_cases h : fr.statusCode = 200 <;> simp [h]
  | exn => rfl

theorem handler_success (fetch : Oracle) (proxies : List String)
    (chosen ccp cc mm yyyy cvv : String) (r : HttpResponse)
    (hp : parse_cc_parameter ccp = some (cc, mm, yyyy, cvv))
    (h1 : cc ≠ "") (h2 : mm ≠ "") (h3 : yyyy ≠ "") (h4 : cvv ≠ "")
    (hr : (make_request_with_fallback fetch proxies (mkTargetUrl cc mm yyyy cvv)).1 = some r) :
    process_credit_card fetch proxies chosen ccp =
      (successEnvelope cc mm yyyy cvv r, 200,
        (make_request_with_fallback fetch proxies (mkTargetUrl cc mm yyyy cvv)).2) := by
  have h200 := mrwf_statusCode hr
  unfold process_credit_card
  rw [hp]
  simp [h1, h2, h3, h4, hr, h200]

theorem handler_fallback (fetch : Oracle) (proxies : List String)
    (chosen ccp cc mm yyyy cvv : String)
    (hp : parse_cc_parameter ccp = some (cc, mm, yyyy, cvv))
    (h1 : cc ≠ "") (h2 : mm ≠ "") (h3 : yyyy ≠ "") (h4 : cvv ≠ "")
    (hne : proxies ≠ [])
    (hr : (make_request_with_fallback fetch proxies (mkTargetUrl cc mm yyyy cvv)).1 = none) :
    process_credit_card fetch proxies chosen ccp =
      ((finalFallback fetch chosen cc mm yyyy cvv).1, 200,
        (make_request_with_fallback fetch proxies (mkTargetUrl cc mm yyyy cvv)).2 ++
          [(finalFallback fetch chosen cc mm yyyy cvv).2.2]) := by
  unfold process_credit_card
  rw [hp]
  simp [h1, h2, h3, h4, hr, hne, finalFallback_status]

theorem handler_ok_status (fetch : Oracle) (proxies : List String)
    (chosen ccp cc mm yyyy cvv : String)
    (hp : parse_cc_parameter ccp = some (cc, mm, yyyy, cvv))
    (h1 : cc ≠ "") (h2 : mm ≠ "") (h3 : yyyy ≠ "") (h4 : cvv ≠ "") :
    (process_credit_card fetch proxies chosen ccp).2.1 = 200 := by
  unfold process_credit_card
  rw [hp]
  cases hr : (make_request_with_fallback fetch proxies (mkTargetUrl cc mm yyyy cvv)).1 with
  | some r =>
    by_cases hs : r.statusCode = 200
    · simp [h1, h2, h3, h4, hr, hs]
    · rcases eq_or_ne proxies [] with hpe | hpe
      · subst hpe
        simp [h1, h2, h3, h4, hr, hs]
      · simp [h1, h2, h3, h4, hr, hs, hpe, finalFallback_status]
  | none =>
    rcases eq_or_ne proxies [] with hpe | hpe
    · subst hpe
      simp [h1, h2, h3, h4, hr]
    · simp [h1, h2, h3, h4, hr, hpe, finalFallback_status]

theorem normalizeYear_eq_empty (y : String) : normalizeYear y = "" ↔ y = "" := by
  unfold normalizeYear
  by_cases h : y.length = 2
  · rw [if_pos h]
    constructor
    · intro he
      exfalso
      have hl : ("20" ++ y).length = 0 := by rw [he]; rfl
      have h20 : "20".length = 2 := rfl
      rw [String.length_append, h, h20] at hl
      omega
    · intro he
      subst he
      simp at h
  · rw [if_neg h]

theorem finalFallback_req (fetch : Oracle) (chosen cc mm yyyy cvv : String) :
    (finalFallback fetch chosen cc mm yyyy cvv).2.2 = mkFinalRequest cc mm yyyy cvv chosen := by
  unfold finalFallback
  cases fetch (mkFinalRequest cc mm yyyy cvv chosen) with
  | success fr => by_cases h : fr.statusCode = 200 <;> simp [h]
  | exn => rfl

theorem apiBlockedMessage_ne_empty (fr : HttpResponse) : apiBlockedMessage fr ≠ "" := by
  unfold apiBlockedMessage
  intro h
  have hl := congrArg String.length h
  rw [String.length_append] at hl
  have hpos : 0 < ("Target API blocked all requests. Status: " : String).length := by decide
  have hz : ("" : String).length = 0 := rfl
  rw [hz] at hl
  omega

theorem handler_request_bound (fetch : Oracle) (proxies : List String) (chosen ccp : String) :
    (process_credit_card fetch proxies chosen ccp).2.2.length ≤ 1 + proxies.length + 1 := by
  unfold process_credit_card
  cases hp : parse_cc_parameter ccp with
  | none => simp
  | some q =>
    obtain ⟨cc, mm, yyyy, cvv⟩ := q
    dsimp only
    by_cases hc : cc = "" ∨ mm = "" ∨ yyyy = "" ∨ cvv = ""
    · simp [hc]
    · rw [if_neg hc]
      have hlen := mrwf_length fetch proxies (mkTargetUrl cc mm yyyy cvv)
      cases hr : (make_request_with_fallback fetch proxies (mkTargetUrl cc mm yyyy cvv)).1 with
      | some r =>
        dsimp only
        by_cases hs : r.statusCode = 200
        · rw [if_pos hs]
          simpa using by omega
        · rw [if_neg hs]
          by_cases hpe : proxies = []
          · rw [if_pos hpe]
            simpa using by omega
          · rw [if_neg hpe]
            simp only [List.length_append, List.length_cons, List.length_nil]
            omega
      | none =>
        dsimp only
        by_cases hpe : proxies = []
        · rw [if_pos hpe]
          simpa using by omega
        · rw [if_neg hpe]
          simp only [List.length_append, List.length_cons, List.length_nil]
          omega

/-! ### Claims -/

/-- C1 (amended): the endpoint returns HTTP 400 with code
`INVALID_PARAMETERS` and status `declined` exactly when the raw
parameter does not split on `|` into exactly 4 fields OR at least one
of the 4 fields is the empty string (the `not all([...])` check also
rejects empty fields, the empty string being falsy in Python); the
parser yields the invalid sentinel exactly for field counts ≠ 4. -/
theorem C1_invalid_parameters (fetch : Oracle) (proxies : List String) (chosen s : String) :
    (parse_cc_parameter s = none ↔ (pySplitPipe s).length ≠ 4) ∧
    (((process_credit_card fetch proxies chosen s).2.1 = 400 ∧
        (process_credit_card fetch proxies chosen s).1.code = "INVALID_PARAMETERS" ∧
        (process_credit_card fetch proxies chosen s).1.status = "declined") ↔
      ((pySplitPipe s).length ≠ 4 ∨ "" ∈ pySplitPipe s)) := by
  rcases hl : pySplitPipe s with - | ⟨a, - | ⟨b, - | ⟨c, - | ⟨d, - | ⟨e, t⟩⟩⟩⟩⟩
  case nil =>
    have hparse : parse_cc_parameter s = none := by
      unfold parse_cc_parameter
      rw [hl]
    refine ⟨by simp [hparse], ?_⟩
    unfold process_credit_card
    rw [hparse]
    simp [invalidEnvelope]
  case cons.nil =>
    have hparse : parse_cc_parameter s = none := by
      unfold parse_cc_parameter
      rw [hl]
    refine ⟨by simp [hparse], ?_⟩
    unfold process_credit_card
    rw [hparse]
    simp [invalidEnvelope]
  case cons.cons.nil =>
    have hparse : parse_cc_parameter s = none := by
      unfold parse_cc_parameter
      rw [hl]
    refine ⟨by simp [hparse], ?_⟩
    unfold process_credit_card
    rw [hparse]
    simp [invalidEnvelope]
  case cons.cons.cons.nil =>
    have hparse : parse_cc_parameter s = none := by
      unfold parse_cc_parameter
      rw [hl]
    refine ⟨by simp [hparse], ?_⟩
    unfold process_credit_card
    rw [hparse]
    simp [invalidEnvelope]
  case cons.cons.cons.cons.cons =>
    have hparse : parse_cc_parameter s = none := by
      unfold parse_cc_parameter
      rw [hl]
    refine ⟨by simp [hparse], ?_⟩
    unfold process_credit_card
    rw [hparse]
    simp [invalidEnvelope]
  case cons.cons.cons.cons.nil =>
    have hparse : parse_cc_parameter s = some (a, b, normalizeYear c, d) := by
      unfold parse_cc_parameter
      rw [hl]
    refine ⟨by simp [hparse], ?_⟩
    by_cases hc : a = "" ∨ b = "" ∨ normalizeYear c = "" ∨ d = ""
    · have hproc : process_credit_card fetch proxies chosen s = (invalidEnvelope, 400, []) := by
        unfold process_credit_card
        rw [hparse]
        simp [hc]
      have hmem : "" ∈ ([a, b, c, d] : List String) := by
        rcases hc with h | h | h | h
        · rw [← h]; simp
        · rw [← h]; simp
        · rw [← (normalizeYear_eq_empty c).mp h]; simp
        · rw [← h]; simp
      rw [hproc]
      constructor
      · intro _
        exact Or.inr hmem
      · intro _
        exact ⟨rfl, rfl, rfl⟩
    · push_neg at hc
      obtain ⟨h1, h2, h3, h4⟩ := hc
      have h200 := handler_ok_status fetch proxies chosen s a b (normalizeYear c) d hparse h1 h2 h3 h4
      constructor
      · intro hcontra
        rw [h200] at hcontra
        exact absurd hcontra.1 (by norm_num)
      · intro hcontra
        rcases hcontra with h | h
        · simp at h
        · exfalso
          simp only [List.mem_cons, List.not_mem_nil, or_false] at h
          rcases h with h | h | h | h
          · exact h1 h.symm
          · exact h2 h.symm
          · exact h3 ((normalizeYear_eq_empty c).mpr h.symm)
          · exact h4 h.symm

/-- C1 counterexample: the input `1|2||4` splits into exactly 4 fields,
yet the endpoint returns 400 with INVALID_PARAMETERS (the empty third
field fails the `all` check), refuting the claim that every 4-field
input proceeds past parameter validation. -/
theorem C1_counterexample :
    (pySplitPipe "1|2||4").length = 4 ∧
    parse_cc_parameter "1|2||4" = some ("1", "2", "", "4") ∧
    (process_credit_card noFetch PROXY_CONFIGS "p" "1|2||4").2.1 = 400 ∧
    (process_credit_card noFetch PROXY_CONFIGS "p" "1|2||4").1.code = "INVALID_PARAMETERS" :=
  ⟨by decide, by decide, by decide, by decide⟩

/-- C2: for every input that splits into exactly 4 fields, the
normalized year is `"20"` prepended to the raw year exactly when the
raw year has 2 characters (no digit validation), and is the raw year
unchanged otherwise; the other three fields pass through unchanged. -/
theorem C2_year_normalization (s cc mm yy cvv : String)
    (h : pySplitPipe s = [cc, mm, yy, cvv]) :
    parse_cc_parameter s =
      some (cc, mm, if yy.length = 2 then "20" ++ yy else yy, cvv) := by
  unfold parse_cc_parameter normalizeYear
  rw [h]

theorem C2_year_normalization_witness :
    parse_cc_parameter "4546177184967023|01|28|222" =
      some ("4546177184967023", "01", "2028", "222") ∧
    parse_cc_parameter "a|b|2028|d" = some ("a", "b", "2028", "d") ∧
    parse_cc_parameter "a|b|202|d" = some ("a", "b", "202", "d") := by
  refine ⟨?_, ?_, ?_⟩
  · rw [C2_year_normalization "4546177184967023|01|28|222"
      "4546177184967023" "01" "28" "222" (by decide)]
    decide
  · rw [C2_year_normalization "a|b|2028|d" "a" "b" "2028" "d" (by decide)]
    decide
  · rw [C2_year_normalization "a|b|202|d" "a" "b" "202" "d" (by decide)]
    decide

/-- C6: `sanitize_response` is the in-order composition of
mention removal, URL removal, bare-`www` removal, and strip; only
leading/trailing whitespace is trimmed (internal double spaces left by
removals survive, as in the `"hello  world"` example), and empty input
sanitizes to the empty string. -/
theorem C6_sanitize_pipeline :
    (∀ text : String,
      sanitize_response text =
        String.mk (pyStrip (removeWww (removeUrls (removeMentions text.data))))) ∧
    sanitize_response "" = "" ∧
    sanitize_response "hello @user123 world" = "hello  world" ∧
    sanitize_response "visit https://example.com/x?y=1 now" = "visit  now" ∧
    sanitize_response "see www.test.com here" = "see  here" := by
  refine ⟨?_, by decide, by decide, by decide, by decide⟩
  intro text
  unfold sanitize_response
  by_cases h : text = ""
  · subst h
    decide
  · rw [if_neg h]

/-- C7 counterexample: `sanitize_response` is not idempotent.  On
`"httpwww.ab.cd://ef"` the bare-domain pass removes `www.ab.cd`,
gluing `http` onto `://ef`; the result `"http://ef"` is itself a URL
that a second sanitization deletes entirely. -/
theorem C7_counterexample :
    sanitize_response "httpwww.ab.cd://ef" = "http://ef" ∧
    sanitize_response (sanitize_response "httpwww.ab.cd://ef") = "" ∧
    sanitize_response (sanitize_response "httpwww.ab.cd://ef") ≠
      sanitize_response "httpwww.ab.cd://ef" :=
  ⟨by decide, by decide, by decide⟩

/-- C7 (amended): sanitizing already-clean text is idempotent — on any
fixed point of `sanitize_response`, a second application changes
nothing; idempotence fails for general strings (see the
counterexample). -/
theorem C7_idempotent_on_clean (x : String) (h : sanitize_response x = x) :
    sanitize_response (sanitize_response x) = sanitize_response x := by
  rw [h]
  exact h

theorem C7_idempotent_on_clean_witness :
    sanitize_response "hello" = "hello" ∧
    sanitize_response (sanitize_response "hello") = sanitize_response "hello" :=
  ⟨by decide, C7_idempotent_on_clean "hello" (by decide)⟩

/-- C9: the dispatcher is total (embedded as a total function: every
exception of an attempt is absorbed) and its result is either `none`
or a response whose status code is exactly 200 — a non-200 upstream
response is never returned to its caller. -/
theorem C9_result_is_200_or_none (fetch : Oracle) (proxies : List String) (url : String)
    (r : HttpResponse)
    (h : (make_request_with_fallback fetch proxies url).1 = some r) :
    r.statusCode = 200 :=
  mrwf_statusCode h

theorem C9_result_is_200_or_none_witness :
    (make_request_with_fallback okFetch PROXY_CONFIGS "u").1 = some okResp ∧
    okResp.statusCode = 200 :=
  ⟨by decide, C9_result_is_200_or_none okFetch PROXY_CONFIGS "u" okResp (by decide)⟩

/-- C3: the dispatcher attempts delivery strictly sequentially — the
direct request (browser User-Agent, 30 s timeout) first, then, only if
the direct attempt yielded no HTTP 200, the configured proxies in list
order with `?proxy=<entry>` appended, stopping at the first 200; when
everything fails every proxy was attempted; and the whole handler never
issues more than `1 + len(proxies) + 1` outbound requests (the last
`+ 1` being the single last-resort random-proxy attempt). -/
theorem C3_dispatch_order (fetch : Oracle) (proxies : List String) (url : String) :
    (∃ k, k ≤ proxies.length ∧
        (make_request_with_fallback fetch proxies url).2 =
          mkDirectRequest url :: (proxies.map (mkProxyRequest url)).take k) ∧
    (∀ r, ok200 fetch (mkDirectRequest url) = some r →
        make_request_with_fallback fetch proxies url = (some r, [mkDirectRequest url])) ∧
    (∀ r, (make_request_with_fallback fetch proxies url).1 = some r →
        r.statusCode = 200 ∧
        ∃ pre lastReq,
          (make_request_with_fallback fetch proxies url).2 = pre ++ [lastReq] ∧
          ok200 fetch lastReq = some r ∧
          ∀ req ∈ pre, ok200 fetch req = none) ∧
    ((make_request_with_fallback fetch proxies url).1 = none →
        (make_request_with_fallback fetch proxies url).2 =
          mkDirectRequest url :: proxies.map (mkProxyRequest url)) ∧
    (∀ chosen ccp,
        (process_credit_card fetch proxies chosen ccp).2.2.length ≤
          1 + proxies.length + 1) := by
  refine ⟨mrwf_shape fetch proxies url, ?_, ?_, ?_, ?_⟩
  · intro r hok
    unfold make_request_with_fallback
    rw [hok]
  · intro r h
    exact ⟨mrwf_statusCode h, mrwf_eq_some fetch proxies url r h⟩
  · intro h
    exact (mrwf_eq_none fetch proxies url h).1
  · intro chosen ccp
    exact handler_request_bound fetch proxies chosen ccp

theorem C3_dispatch_order_witness :
    make_request_with_fallback okFetch PROXY_CONFIGS "u" = (some okResp, [mkDirectRequest "u"]) :=
  (C3_dispatch_order okFetch PROXY_CONFIGS "u").2.1 okResp (by decide)

/-- C4: when the direct attempt and every listed proxy have failed,
the handler issues exactly one final randomly-selected-proxy attempt
and classifies it three ways: a 200 reply gives `PROXY_SUCCESS` /
`approved`; a non-200 reply gives `API_BLOCKED` / `declined` with a
non-empty message; a raised exception gives `NETWORK_BLOCKED` /
`declined` with a non-empty message; all three are returned with
HTTP 200. -/
theorem C4_last_resort_classification (fetch : Oracle) (proxies : List String)
    (chosen ccp cc mm yyyy cvv : String)
    (hp : parse_cc_parameter ccp = some (cc, mm, yyyy, cvv))
    (h1 : cc ≠ "") (h2 : mm ≠ "") (h3 : yyyy ≠ "") (h4 : cvv ≠ "")
    (hne : proxies ≠ [])
    (hfail : (make_request_with_fallback fetch proxies (mkTargetUrl cc mm yyyy cvv)).1 = none) :
    (process_credit_card fetch proxies chosen ccp).2.2 =
      (make_request_with_fallback fetch proxies (mkTargetUrl cc mm yyyy cvv)).2 ++
        [mkFinalRequest cc mm yyyy cvv chosen] ∧
    (process_credit_card fetch proxies chosen ccp).2.1 = 200 ∧
    (∀ fr, fetch (mkFinalRequest cc mm yyyy cvv chosen) = FetchResult.success fr →
      (fr.statusCode = 200 →
        (process_credit_card fetch proxies chosen ccp).1.code = "PROXY_SUCCESS" ∧
        (process_credit_card fetch proxies chosen ccp).1.status = "approved") ∧
      (fr.statusCode ≠ 200 →
        (process_credit_card fetch proxies chosen ccp).1.code = "API_BLOCKED" ∧
        (process_credit_card fetch proxies chosen ccp).1.status = "declined" ∧
        (process_credit_card fetch proxies chosen ccp).1.message =
          some (apiBlockedMessage fr) ∧
        apiBlockedMessage fr ≠ "")) ∧
    (fetch (mkFinalRequest cc mm yyyy cvv chosen) = FetchResult.exn →
      (process_credit_card fetch proxies chosen ccp).1.code = "NETWORK_BLOCKED" ∧
      (process_credit_card fetch proxies chosen ccp).1.status = "declined" ∧
      (process_credit_card fetch proxies chosen ccp).1.message = some NETWORK_BLOCKED_MSG ∧
      NETWORK_BLOCKED_MSG ≠ "") := by
  have hmain := handler_fallback fetch proxies chosen ccp cc mm yyyy cvv hp h1 h2 h3 h4 hne hfail
  rw [hmain]
  refine ⟨by rw [finalFallback_req], rfl, ?_, ?_⟩
  · intro fr hfr
    constructor
    · intro hs
      unfold finalFallback
      rw [hfr]
      dsimp only
      rw [if_pos hs]
      exact ⟨rfl, rfl⟩
    · intro hs
      unfold finalFallback
      rw [hfr]
      dsimp only
      rw [if_neg hs]
      exact ⟨rfl, rfl, rfl, apiBlockedMessage_ne_empty fr⟩
  · intro hexn
    unfold finalFallback
    rw [hexn]
    refine ⟨rfl, rfl, rfl, by decide⟩

theorem C4_last_resort_classification_witness :
    (process_credit_card noFetch PROXY_CONFIGS theProxy
        "4546177184967023|01|28|222").1.code = "NETWORK_BLOCKED" ∧
    (process_credit_card noFetch PROXY_CONFIGS theProxy
        "4546177184967023|01|28|222").1.status = "declined" ∧
    (process_credit_card noFetch PROXY_CONFIGS theProxy
        "4546177184967023|01|28|222").1.message = some NETWORK_BLOCKED_MSG ∧
    NETWORK_BLOCKED_MSG ≠ "" :=
  (C4_last_resort_classification noFetch PROXY_CONFIGS theProxy
    "4546177184967023|01|28|222" "4546177184967023" "01" "2028" "222"
    (by decide) (by decide) (by decide) (by decide) (by decide) (by decide)
    (by decide)).2.2.2 (by decide)

/-- C5: for every HTTP-200 upstream body, a structured (JSON-object)
body yields `code` defaulting to `UNKNOWN_ERROR`, `status` defaulting
to `declined`, `message` defaulting to the empty string, with a
non-empty message sanitized before being returned; an unstructured
body yields the sanitized raw text as the message with
`TEXT_RESPONSE` / `processed`. -/
theorem C5_payload_interpretation (fetch : Oracle) (proxies : List String)
    (chosen ccp cc mm yyyy cvv : String) (r : HttpResponse)
    (hp : parse_cc_parameter ccp = some (cc, mm, yyyy, cvv))
    (h1 : cc ≠ "") (h2 : mm ≠ "") (h3 : yyyy ≠ "") (h4 : cvv ≠ "")
    (hr : (make_request_with_fallback fetch proxies (mkTargetUrl cc mm yyyy cvv)).1 = some r) :
    (∀ api, r.body.json = some api →
      (process_credit_card fetch proxies chosen ccp).1.code = api.code.getD "UNKNOWN_ERROR" ∧
      (process_credit_card fetch proxies chosen ccp).1.status = api.status.getD "declined" ∧
      (process_credit_card fetch proxies chosen ccp).1.response =
        some (if api.message.getD "" ≠ "" then sanitize_response (api.message.getD "")
          else api.message.getD "")) ∧
    (r.body.json = none →
      (process_credit_card fetch proxies chosen ccp).1.code = "TEXT_RESPONSE" ∧
      (process_credit_card fetch proxies chosen ccp).1.status = "processed" ∧
      (process_credit_card fetch proxies chosen ccp).1.response =
        some (sanitize_response r.body.text)) := by
  have hmain := handler_success fetch proxies chosen ccp cc mm yyyy cvv r hp h1 h2 h3 h4 hr
  rw [hmain]
  constructor
  · intro api hapi
    unfold successEnvelope
    rw [hapi]
    exact ⟨rfl, rfl, rfl⟩
  · intro hnone
    unfold successEnvelope
    rw [hnone]
    exact ⟨rfl, rfl, rfl⟩

theorem C5_payload_interpretation_witness :
    (process_credit_card okFetch PROXY_CONFIGS theProxy
        "4546177184967023|01|28|222").1.code = "APPROVED" ∧
    (process_credit_card okFetch PROXY_CONFIGS theProxy
        "4546177184967023|01|28|222").1.status = "live" ∧
    (process_credit_card okFetch PROXY_CONFIGS theProxy
        "4546177184967023|01|28|222").1.response = some "ok" := by
  have h := (C5_payload_interpretation okFetch PROXY_CONFIGS theProxy
    "4546177184967023|01|28|222" "4546177184967023" "01" "2028" "222" okResp
    (by decide) (by decide) (by decide) (by decide) (by decide) (by decide)).1 okJson rfl
  exact ⟨h.1.trans (by decide), h.2.1.trans (by decide), h.2.2.trans (by decide)⟩

/-- C8 counterexample: with every outbound attempt failing, the
terminal NETWORK_BLOCKED envelope — a resolved outcome returned with
HTTP 200 — carries no `cc` field and no `response` field, refuting the
claim that every final envelope contains the reconstructed `cc`. -/
theorem C8_counterexample :
    (process_credit_card noFetch PROXY_CONFIGS theProxy
        "4546177184967023|01|28|222").2.1 = 200 ∧
    (process_credit_card noFetch PROXY_CONFIGS theProxy
        "4546177184967023|01|28|222").1.code = "NETWORK_BLOCKED" ∧
    (process_credit_card noFetch PROXY_CONFIGS theProxy
        "4546177184967023|01|28|222").1.cc = none ∧
    (process_credit_card noFetch PROXY_CONFIGS theProxy
        "4546177184967023|01|28|222").1.response = none :=
  ⟨by decide, by decide, by decide, by decide⟩

/-- C8 (amended): the success and proxy-success envelopes carry the
reconstructed `cc` field (the normalized fields joined as
`number|month|year|cvv`) together with a `response` field (and the
always-present `status` and `code`); the terminal API_BLOCKED and
NETWORK_BLOCKED envelopes omit `cc` and `response`, carrying `message`
instead. -/
theorem C8_envelope_fields (fetch : Oracle) (proxies : List String)
    (chosen ccp cc mm yyyy cvv : String)
    (hp : parse_cc_parameter ccp = some (cc, mm, yyyy, cvv))
    (h1 : cc ≠ "") (h2 : mm ≠ "") (h3 : yyyy ≠ "") (h4 : cvv ≠ "") :
    (∀ r, (make_request_with_fallback fetch proxies (mkTargetUrl cc mm yyyy cvv)).1 = some r →
      (process_credit_card fetch proxies chosen ccp).1.cc = some (ccJoin cc mm yyyy cvv) ∧
      ((process_credit_card fetch proxies chosen ccp).1.response).isSome = true) ∧
    ((make_request_with_fallback fetch proxies (mkTargetUrl cc mm yyyy cvv)).1 = none →
      proxies ≠ [] →
      (∀ fr, fetch (mkFinalRequest cc mm yyyy cvv chosen) = FetchResult.success fr →
        (fr.statusCode = 200 →
          (process_credit_card fetch proxies chosen ccp).1.cc =
            some (ccJoin cc mm yyyy cvv) ∧
          (process_credit_card fetch proxies chosen ccp).1.response =
            some (sanitize_response fr.body.text)) ∧
        (fr.statusCode ≠ 200 →
          (process_credit_card fetch proxies chosen ccp).1.cc = none ∧
          (process_credit_card fetch proxies chosen ccp).1.response = none ∧
          ((process_credit_card fetch proxies chosen ccp).1.message).isSome = true)) ∧
      (fetch (mkFinalRequest cc mm yyyy cvv chosen) = FetchResult.exn →
        (process_credit_card fetch proxies chosen ccp).1.cc = none ∧
        (process_credit_card fetch proxies chosen ccp).1.response = none ∧
        ((process_credit_card fetch proxies chosen ccp).1.message).isSome = true)) := by
  constructor
  · intro r hr
    have hmain := handler_success fetch proxies chosen ccp cc mm yyyy cvv r hp h1 h2 h3 h4 hr
    rw [hmain]
    unfold successEnvelope
    cases r.body.json with
    | some api => exact ⟨rfl, rfl⟩
    | none => exact ⟨rfl, rfl⟩
  · intro hfail hne
    have hmain := handler_fallback fetch proxies chosen ccp cc mm yyyy cvv hp h1 h2 h3 h4 hne hfail
    rw [hmain]
    constructor
    · intro fr hfr
      constructor
      · intro hs
        unfold finalFallback
        rw [hfr]
        dsimp only
        rw [if_pos hs]
        exact ⟨rfl, rfl⟩
      · intro hs
        unfold finalFallback
        rw [hfr]
        dsimp only
        rw [if_neg hs]
        exact ⟨rfl, rfl, rfl⟩
    · intro hexn
      unfold finalFallback
      rw [hexn]
      exact ⟨rfl, rfl, rfl⟩

theorem C8_envelope_fields_witness :
    (process_credit_card okFetch PROXY_CONFIGS theProxy
        "4546177184967023|01|28|222").1.cc =
      some (ccJoin "4546177184967023" "01" "2028" "222") ∧
    ((process_credit_card okFetch PROXY_CONFIGS theProxy
        "4546177184967023|01|28|222").1.response).isSome = true :=
  (C8_envelope_fields okFetch PROXY_CONFIGS theProxy
    "4546177184967023|01|28|222" "4546177184967023" "01" "2028" "222"
    (by decide) (by decide) (by decide) (by decide) (by decide)).1 okResp (by decide)

/-- C10: the last-resort request is issued without the browser
User-Agent header, unlike the direct attempt and every ordered proxy
attempt, which all attach it. -/
theorem C10_final_attempt_headers (fetch : Oracle) (proxies : List String)
    (chosen ccp cc mm yyyy cvv : String)
    (hp : parse_cc_parameter ccp = some (cc, mm, yyyy, cvv))
    (h1 : cc ≠ "") (h2 : mm ≠ "") (h3 : yyyy ≠ "") (h4 : cvv ≠ "")
    (hne : proxies ≠ [])
    (hfail : (make_request_with_fallback fetch proxies (mkTargetUrl cc mm yyyy cvv)).1 = none) :
    (process_credit_card fetch proxies chosen ccp).2.2 =
      (make_request_with_fallback fetch proxies (mkTargetUrl cc mm yyyy cvv)).2 ++
        [mkFinalRequest cc mm yyyy cvv chosen] ∧
    (mkFinalRequest cc mm yyyy cvv chosen).userAgent = none ∧
    ∀ req ∈ (make_request_with_fallback fetch proxies (mkTargetUrl cc mm yyyy cvv)).2,
      req.userAgent = some browserUserAgent := by
  have hmain := handler_fallback fetch proxies chosen ccp cc mm yyyy cvv hp h1 h2 h3 h4 hne hfail
  refine ⟨?_, rfl, mrwf_userAgent fetch proxies (mkTargetUrl cc mm yyyy cvv)⟩
  rw [hmain, finalFallback_req]

theorem C10_final_attempt_headers_witness :
    (process_credit_card noFetch PROXY_CONFIGS theProxy
        "4546177184967023|01|28|222").2.2 =
      (make_request_with_fallback noFetch PROXY_CONFIGS
          (mkTargetUrl "4546177184967023" "01" "2028" "222")).2 ++
        [mkFinalRequest "4546177184967023" "01" "2028" "222" theProxy] ∧
    (mkFinalRequest "4546177184967023" "01" "2028" "222" theProxy).userAgent = none ∧
    (mkDirectRequest (mkTargetUrl "4546177184967023" "01" "2028" "222")).userAgent =
      some browserUserAgent := by
  have h := C10_final_attempt_headers noFetch PROXY_CONFIGS theProxy
    "4546177184967023|01|28|222" "4546177184967023" "01" "2028" "222"
    (by decide) (by decide) (by decide) (by decide) (by decide) (by decide) (by decide)
  exact ⟨h.1, h.2.1, h.2.2 (mkDirectRequest (mkTargetUrl "4546177184967023" "01" "2028" "222"))
    (by decide)⟩

end PaypalProxy
